import Mathlib

/-!
Shallow embedding of the rratings rating engine (src/glicko.rs, src/glicko2.rs,
src/ligcko2.rs, src/playerdb.rs).

Modelling conventions: f32/f64 arithmetic is idealised as real arithmetic;
DateTime timestamps are modelled as integer second counts; the external
regula-falsi root finder (the roots crate) is passed as a parameter of type
Solver; the unbounded bracket-search while loop in the two iterative updates
is modelled with explicit fuel, where running out of fuel (Option.none)
models divergence of the uncapped source loop; the Rust panics reachable from
the modelled code (unwrap of the root finder result, the assert on the stats
color, unwrap of a missing game result) are modelled as UpdateError values.
-/

noncomputable section

inductive Color where
  | white
  | black
deriving DecidableEq

inductive Outcome where
  | draw
  | decisive (winner : Color)
deriving DecidableEq

/-- glicko.rs: struct GlickoRating { r: f32, rd: f32 } -/
structure GlickoRating where
  r : ℝ
  rd : ℝ

/-- glicko2.rs: struct Glicko2Rating { mu: f32, phi: f32, sigma: f32 } -/
structure Glicko2Rating where
  mu : ℝ
  phi : ℝ
  sigma : ℝ

/-- ligcko2.rs: struct Ligcko2Rating { mu: f32, phi: f32, sigma: f32 } -/
structure Ligcko2Rating where
  mu : ℝ
  phi : ℝ
  sigma : ℝ

/-- playerdb.rs: struct Player, with mtime as integer seconds. -/
structure Player where
  g1rating : GlickoRating
  g2rating : Glicko2Rating
  l2rating : Ligcko2Rating
  mtime : ℤ

/-- calc_days, identical private helper in glicko.rs, glicko2.rs and ligcko2.rs:
seconds of the duration divided by 24*60*60. -/
def calcDays (old now : ℤ) : ℝ :=
  ((now - old : ℤ) : ℝ) / (24 * 60 * 60)

namespace GlickoRating

def DAYS_UNTIL_UNRATED : ℝ := 5 * 365

/-- glicko.rs: C_2 = (350^2 - 50^2) / DAYS_UNTIL_UNRATED (the source uses 50, per
its derivation comment 350 = sqrt(50^2 + c^2 * 1825)). -/
def C_2 : ℝ := (350 * 350 - 50 * 50) / DAYS_UNTIL_UNRATED

/-- glicko.rs: Q = 0.0057565 (literal in the source). -/
def Q : ℝ := 0.0057565

def new : GlickoRating := ⟨1500, 350⟩

def calc_g (rd : ℝ) : ℝ :=
  1 / Real.sqrt (1 + 3 * Q ^ 2 * rd ^ 2 / Real.pi ^ 2)

def calc_e (rd r1 r2 : ℝ) : ℝ :=
  1 / (1 + (10 : ℝ) ^ (-(calc_g rd) * (r2 - r1) / 400))

def calc_expect (rd1 rd2 r1 r2 : ℝ) : ℝ :=
  calc_e (Real.sqrt (rd1 ^ 2 + rd2 ^ 2)) r1 r2

/-- glicko.rs calc_new_rd: sqrt(rd^2 + days * C_2) capped at 350. -/
def calc_new_rd (self : GlickoRating) (days : ℝ) : ℝ :=
  min (Real.sqrt (self.rd ^ 2 + days * C_2)) 350

def expect (self : GlickoRating) (old_time result_time : ℤ) (opponent : Player) : ℝ :=
  let days_me := calcDays old_time result_time
  let days_him := calcDays opponent.mtime result_time
  let pre_rd_me := self.calc_new_rd days_me
  let pre_rd_his := opponent.g1rating.calc_new_rd days_him
  calc_expect pre_rd_his pre_rd_me opponent.g1rating.r self.r

def update_with_result (self : GlickoRating) (score : ℝ) (old_time result_time : ℤ)
    (opponent : Player) : GlickoRating :=
  let days_me := calcDays old_time result_time
  let days_him := calcDays opponent.mtime result_time
  let pre_rd_me := self.calc_new_rd days_me
  let pre_rd_his := opponent.g1rating.calc_new_rd days_him
  let e := calc_e pre_rd_his opponent.g1rating.r self.r
  let g := calc_g pre_rd_his
  let d_2 := 1 / (Q ^ 2 * g ^ 2 * e * (1 - e))
  let q_mul := Q / (1 / pre_rd_me ^ 2 + 1 / d_2)
  let new_rating := self.r + q_mul * g * (score - e)
  let new_rd_sqr := 1 / (1 / pre_rd_me ^ 2 + 1 / d_2)
  let new_rd := Real.sqrt new_rd_sqr
  ⟨new_rating, max new_rd 30⟩

end GlickoRating

/-- The volatility-equation closure f, textually identical in
glicko2.rs update_with_result and ligcko2.rs update_with_result. -/
def volF (delta phi v a tau x : ℝ) : ℝ :=
  Real.exp x * (delta ^ 2 - phi ^ 2 - v - Real.exp x) / (2 * (phi ^ 2 + v + Real.exp x) ^ 2)
    - (x - a) / tau ^ 2

/-- The bracket-lowering loop: while f(a - k*tau) < 0 { k += 1 }, result a - k*tau.
The source loop has no iteration cap; the fuel argument is a modelling artifact
and none models divergence. -/
def bracketSearch (f : ℝ → ℝ) (a tau : ℝ) : ℕ → ℝ → Option ℝ
  | 0, _ => none
  | fuel + 1, k =>
    if f (a - k * tau) < 0 then bracketSearch f a tau fuel (k + 1)
    else some (a - k * tau)

/-- Selection of the lower bracket b in both iterative updates: if
delta^2 > phi^2 + v then ln(delta^2 - phi^2 - v), else the uncapped loop. -/
def computeB (f : ℝ → ℝ) (delta phi v a tau : ℝ) (fuel : ℕ) : Option ℝ :=
  if delta ^ 2 > phi ^ 2 + v then some (Real.log (delta ^ 2 - phi ^ 2 - v))
  else bracketSearch f a tau fuel 1

/-- Failure outcomes of an update: bracketDiverge models the uncapped while
loop never exiting (fuel exhaustion), noConvergency models the roots crate
returning Err which the source unwraps (a panic), assertFailed models the
assert on the stats color, noResult models unwrap of a missing game result. -/
inductive UpdateError where
  | bracketDiverge
  | noConvergency
  | assertFailed
  | noResult
deriving DecidableEq

/-- The external find_root_regula_falsi from the roots crate, abstracted:
it receives the closure f and the bracket ends a and b. -/
abbrev Solver := (ℝ → ℝ) → ℝ → ℝ → Except UpdateError ℝ

namespace Glicko2Rating

def TAU : ℝ := 0.75
def QF : ℝ := 173.7178
def VOLATILITY : ℝ := 0.06

def new : Glicko2Rating := ⟨0, 350 / QF, VOLATILITY⟩

def calc_g (phi : ℝ) : ℝ :=
  1 / Real.sqrt (1 + 3 * phi ^ 2 / Real.pi ^ 2)

def calc_e (phi r1 r2 : ℝ) : ℝ :=
  1 / (1 + Real.exp (-(calc_g phi) * (r2 - r1)))

def calc_expect (rd1 rd2 r1 r2 : ℝ) : ℝ :=
  calc_e (Real.sqrt (rd1 ^ 2 + rd2 ^ 2)) r1 r2

def expect (self : Glicko2Rating) (opponent : Player) : ℝ :=
  let pre_phi_me := Real.sqrt (self.phi ^ 2 + self.sigma ^ 2)
  let pre_phi_his := Real.sqrt (opponent.g2rating.phi ^ 2 + opponent.g2rating.sigma ^ 2)
  calc_expect pre_phi_his pre_phi_me opponent.g2rating.mu self.mu

/-- e in update_with_result: calc_e(opponent.phi, opponent.mu, self.mu). -/
def eVal (self o : Glicko2Rating) : ℝ := calc_e o.phi o.mu self.mu

/-- g in update_with_result: calc_g(opponent.phi). -/
def gVal (o : Glicko2Rating) : ℝ := calc_g o.phi

/-- v in update_with_result. -/
def vVal (self o : Glicko2Rating) : ℝ :=
  1 / (gVal o ^ 2 * eVal self o * (1 - eVal self o))

/-- delta in update_with_result. -/
def deltaVal (self o : Glicko2Rating) (score : ℝ) : ℝ :=
  vVal self o * gVal o * (score - eVal self o)

/-- a = ln(sigma^2) in update_with_result. -/
def aVal (self : Glicko2Rating) : ℝ := Real.log (self.sigma ^ 2)

/-- The closure f of update_with_result, with orig_phi = self.phi as in the source. -/
def fVal (self o : Glicko2Rating) (score : ℝ) : ℝ → ℝ :=
  volF (deltaVal self o score) self.phi (vVal self o) (aVal self) TAU

/-- The bracket b of update_with_result. -/
def bVal (self o : Glicko2Rating) (score : ℝ) (fuel : ℕ) : Option ℝ :=
  computeB (fVal self o score) (deltaVal self o score) self.phi (vVal self o) (aVal self) TAU fuel

/-- The tail of update_with_result after the root finder returned root. -/
def applyRoot (self : Glicko2Rating) (score : ℝ) (o : Glicko2Rating) (root : ℝ) : Glicko2Rating :=
  let e := eVal self o
  let g := gVal o
  let v := vVal self o
  let sigma := Real.exp (root / 2)
  let pre_phi := Real.sqrt (self.phi ^ 2 + sigma ^ 2)
  let phi := 1 / Real.sqrt (1 / pre_phi ^ 2 + 1 / v)
  let mu := self.mu + phi ^ 2 * g * (score - e)
  ⟨mu, phi, sigma⟩

/-- glicko2.rs update_with_result; no floor or cap is applied to phi or sigma. -/
def update_with_result (solver : Solver) (fuel : ℕ) (self : Glicko2Rating) (score : ℝ)
    (opponent : Player) : Except UpdateError Glicko2Rating :=
  let o := opponent.g2rating
  match bVal self o score fuel with
  | none => .error .bracketDiverge
  | some b =>
    match solver (fVal self o score) (aVal self) b with
    | .error e => .error e
    | .ok root => .ok (applyRoot self score o root)

end Glicko2Rating

namespace Ligcko2Rating

def TAU : ℝ := 0.75
def QF : ℝ := 173.7178
def VOLATILITY : ℝ := 0.06
def RATING_PERIOD_DAYS : ℝ := 4.665
def MAX_PHI : ℝ := 350 / QF
def MIN_PHI : ℝ := 60 / QF
def MAX_VOLATILITY : ℝ := 0.1

def new : Ligcko2Rating := ⟨0, 350 / QF, VOLATILITY⟩

def calc_g (phi : ℝ) : ℝ :=
  1 / Real.sqrt (1 + 3 * phi ^ 2 / Real.pi ^ 2)

def calc_e (phi mu1 mu2 : ℝ) : ℝ :=
  1 / (1 + Real.exp (-(calc_g phi) * (mu2 - mu1)))

def calc_expect (phi1 phi2 mu1 mu2 : ℝ) : ℝ :=
  calc_e (Real.sqrt (phi1 ^ 2 + phi2 ^ 2)) mu1 mu2

/-- ligcko2.rs calc_new_phi: sqrt(phi^2 + (days/RATING_PERIOD_DAYS)*sigma^2)
capped at MAX_PHI; this uses the stored (old) sigma. -/
def calc_new_phi (self : Ligcko2Rating) (days : ℝ) : ℝ :=
  min (Real.sqrt (self.phi ^ 2 + days / RATING_PERIOD_DAYS * self.sigma ^ 2)) MAX_PHI

def expect (self : Ligcko2Rating) (old_time result_time : ℤ) (opponent : Player) : ℝ :=
  let days_me := calcDays old_time result_time
  let days_him := calcDays opponent.mtime result_time
  let pre_phi_me := self.calc_new_phi days_me
  let pre_phi_his := opponent.l2rating.calc_new_phi days_him
  calc_expect pre_phi_his pre_phi_me opponent.l2rating.mu self.mu

/-- e in update_with_result: computed from the opponent's raw stored phi
(the pre-decay of both sides is commented out in the source). -/
def eVal (self o : Ligcko2Rating) : ℝ := calc_e o.phi o.mu self.mu

def gVal (o : Ligcko2Rating) : ℝ := calc_g o.phi

def vVal (self o : Ligcko2Rating) : ℝ :=
  1 / (gVal o ^ 2 * eVal self o * (1 - eVal self o))

def deltaVal (self o : Ligcko2Rating) (score : ℝ) : ℝ :=
  vVal self o * gVal o * (score - eVal self o)

def aVal (self : Ligcko2Rating) : ℝ := Real.log (self.sigma ^ 2)

/-- The closure f of ligcko2.rs update_with_result; orig_phi is the raw
self.phi, exactly as the source has it. -/
def fVal (self o : Ligcko2Rating) (score : ℝ) : ℝ → ℝ :=
  volF (deltaVal self o score) self.phi (vVal self o) (aVal self) TAU

/-- Modelled from the spec: spec section 4.3 (a) states that elapsed-time decay
is applied before the update, with phi_pre = sqrt(phi^2 + (days/period)*sigma^2)
computed with the old sigma and capped at the maximum, and that this pre-decayed
phi is what enters the variance/delta/volatility computation.  Under that
description the volatility closure would receive calc_new_phi self days instead
of the raw self.phi.  The source (ligcko2.rs update_with_result) has this
pre-decay commented out and passes the raw self.phi, which is fVal above. -/
def fValPredecay (self o : Ligcko2Rating) (score days : ℝ) : ℝ → ℝ :=
  volF (deltaVal self o score) (calc_new_phi self days) (vVal self o) (aVal self) TAU

def bVal (self o : Ligcko2Rating) (score : ℝ) (fuel : ℕ) : Option ℝ :=
  computeB (fVal self o score) (deltaVal self o score) self.phi (vVal self o) (aVal self) TAU fuel

/-- The tail of ligcko2.rs update_with_result after the root finder returned
root: phi_star recombines the old phi with the new sigma prorated by days,
then the final phi is floored at MIN_PHI and sigma capped at MAX_VOLATILITY. -/
def applyRoot (self : Ligcko2Rating) (score : ℝ) (o : Ligcko2Rating) (days root : ℝ) :
    Ligcko2Rating :=
  let e := eVal self o
  let g := gVal o
  let v := vVal self o
  let sigma := Real.exp (root / 2)
  let phi_star := Real.sqrt (self.phi ^ 2 + days / RATING_PERIOD_DAYS * sigma ^ 2)
  let phi := 1 / Real.sqrt (1 / phi_star ^ 2 + 1 / v)
  let mu := self.mu + phi ^ 2 * g * (score - e)
  ⟨mu, max phi MIN_PHI, min sigma MAX_VOLATILITY⟩

/-- ligcko2.rs update_with_result.  days_me enters only via applyRoot
(phi_star with the new sigma); the volatility computation uses the raw
self.phi and the opponent's raw phi. -/
def update_with_result (solver : Solver) (fuel : ℕ) (self : Ligcko2Rating) (score : ℝ)
    (old_time result_time : ℤ) (opponent : Player) : Except UpdateError Ligcko2Rating :=
  let days_me := calcDays old_time result_time
  let o := opponent.l2rating
  match bVal self o score fuel with
  | none => .error .bracketDiverge
  | some b =>
    match solver (fVal self o score) (aVal self) b with
    | .error e => .error e
    | .ok root => .ok (applyRoot self score o days_me root)

end Ligcko2Rating

/-- playerdb.rs: StatsDB counters (u64 counters as naturals, f64 accumulators
as reals). -/
structure StatsDB where
  glicko_guess : ℕ
  glicko_predicted : ℕ
  glicko_mse_accum : ℝ
  glicko_mse_total : ℝ
  glicko2_guess : ℕ
  glicko2_predicted : ℕ
  glicko2_mse_accum : ℝ
  glicko2_mse_total : ℝ
  ligcko2_guess : ℕ
  ligcko2_predicted : ℕ
  ligcko2_mse_accum : ℝ
  ligcko2_mse_total : ℝ
  lichess_guess : ℕ
  lichess_predicted : ℕ

def StatsDB.new : StatsDB := ⟨0, 0, 0, 0, 0, 0, 0, 0, 0, 0, 0, 0, 0, 0⟩

/-- The ternary expected score used for prediction stats: 1 if the first
rating is strictly greater, 0 if strictly smaller, 0.5 on a tie. -/
def ternaryExpected (x y : ℝ) : ℝ :=
  if x > y then 1 else if x < y then 0 else 1 / 2

/-- Increment for the predicted counter: 1 when the prediction was within
0.5 of the score. -/
def predictedInc (score expected : ℝ) : ℕ :=
  if |score - expected| < 0.5 then 1 else 0

def Player.new (mtime : ℤ) : Player :=
  ⟨GlickoRating.new, Glicko2Rating.new, Ligcko2Rating.new, mtime⟩

/-- The stats-recording block of playerdb.rs Player::update_with_result,
run when stats collection is enabled.  lich carries the externally reported
(white_rating, black_rating) pair when present; the source asserts
color == White before recording the lichess prediction, modelled as
assertFailed. -/
def Player.recordStats (self : Player) (color : Color) (score : ℝ)
    (old_time result_time : ℤ) (opponent : Player) (stats : StatsDB)
    (lich : Option (ℤ × ℤ)) : Except UpdateError StatsDB :=
  let base : StatsDB :=
    { stats with
      glicko_guess := stats.glicko_guess + 1
      glicko_predicted := stats.glicko_predicted +
        predictedInc score (ternaryExpected self.g1rating.r opponent.g1rating.r)
      glicko_mse_total := stats.glicko_mse_total + 1
      glicko_mse_accum := stats.glicko_mse_accum +
        (score - self.g1rating.expect old_time result_time opponent) ^ 2
      glicko2_guess := stats.glicko2_guess + 1
      glicko2_predicted := stats.glicko2_predicted +
        predictedInc score (ternaryExpected self.g2rating.mu opponent.g2rating.mu)
      glicko2_mse_total := stats.glicko2_mse_total + 1
      glicko2_mse_accum := stats.glicko2_mse_accum +
        (score - self.g2rating.expect opponent) ^ 2
      ligcko2_guess := stats.ligcko2_guess + 1
      ligcko2_predicted := stats.ligcko2_predicted +
        predictedInc score (ternaryExpected self.l2rating.mu opponent.l2rating.mu)
      ligcko2_mse_total := stats.ligcko2_mse_total + 1
      ligcko2_mse_accum := stats.ligcko2_mse_accum +
        (score - self.l2rating.expect old_time result_time opponent) ^ 2 }
  match lich with
  | none => .ok base
  | some (wr, br) =>
    if color = Color.white then
      .ok { base with
            lichess_guess := base.lichess_guess + 1
            lichess_predicted := base.lichess_predicted +
              predictedInc score (ternaryExpected (wr : ℝ) (br : ℝ)) }
    else .error .assertFailed

/-- playerdb.rs Player::update_with_result: score from outcome and color,
optional stats recording, then the three model updates in order and
mtime := result_time. -/
def Player.update_with_result (solver : Solver) (fuel : ℕ) (self : Player) (color : Color)
    (result : Outcome) (result_time : ℤ) (opponent : Player) (stats : Option StatsDB)
    (lich : Option (ℤ × ℤ)) : Except UpdateError (Player × Option StatsDB) :=
  let old_time := self.mtime
  let score : ℝ :=
    match result with
    | .draw => 1 / 2
    | .decisive winner => if winner = color then 1 else 0
  do
    let stats' ←
      match stats with
      | none => Except.ok (none : Option StatsDB)
      | some st =>
        (self.recordStats color score old_time result_time opponent st lich).map some
    let g2' ← Glicko2Rating.update_with_result solver fuel self.g2rating score opponent
    let l2' ← Ligcko2Rating.update_with_result solver fuel self.l2rating score
      old_time result_time opponent
    Except.ok
      ({ g1rating := self.g1rating.update_with_result score old_time result_time opponent
         g2rating := g2'
         l2rating := l2'
         mtime := result_time }, stats')

/-- main.rs ResultUpdate, restricted to the fields RatingDB::update reads. -/
structure ResultUpdate where
  white : String
  black : String
  result : Option Outcome
  datetime : ℤ
  white_rating : ℤ
  black_rating : ℤ

/-- The player map (HashMap<String, Player>). -/
def PlayerMap : Type := String → Option Player

def PlayerMap.insert (m : PlayerMap) (k : String) (v : Player) : PlayerMap :=
  fun k' => if k' = k then some v else m k'

structure RatingDB where
  db : PlayerMap
  stats : StatsDB

def RatingDB.new : RatingDB := ⟨fun _ => none, StatsDB.new⟩

/-- Lookup-or-create of playerdb.rs RatingDB::update; a missing player is
created with the record's timestamp. -/
def RatingDB.fetch (m : PlayerMap) (k : String) (t : ℤ) : Player :=
  match m k with
  | some e => e
  | none => Player.new t

/-- playerdb.rs RatingDB::update: unwrap the result, fetch or create both
entries, update white against the pre-update black snapshot with stats
enabled, update black against the already-updated white entry, then insert
white first and black second (so on equal keys the black write wins). -/
def RatingDB.update (solver : Solver) (fuel : ℕ) (self : RatingDB) (upd : ResultUpdate) :
    Except UpdateError RatingDB :=
  match upd.result with
  | none => .error .noResult
  | some result =>
    let res_time := upd.datetime
    let white_entry := RatingDB.fetch self.db upd.white res_time
    let black_entry := RatingDB.fetch self.db upd.black res_time
    do
      let ws ← white_entry.update_with_result solver fuel .white result res_time black_entry
        (some self.stats) (some (upd.white_rating, upd.black_rating))
      let bs ← black_entry.update_with_result solver fuel .black result res_time ws.1 none none
      Except.ok ⟨(self.db.insert upd.white ws.1).insert upd.black bs.1,
        ws.2.getD self.stats⟩

/-- IEEE f64 division as used in get_stats: when the divisor is zero the f64
result is not a finite number (NaN here, since every dividend at a zero
divisor in get_stats is itself zero), modelled as none. -/
def f64div (x y : ℝ) : Option ℝ :=
  if y = 0 then none else some (x / y)

/-- The numeric contents of the get_stats report line (string formatting is
presentation and out of scope). -/
structure StatsReport where
  pred_rate : Option ℝ
  mse : Option ℝ
  pred_rate_g2 : Option ℝ
  mse_g2 : Option ℝ
  pred_rate_l2 : Option ℝ
  mse_l2 : Option ℝ
  lichess_pred_rate : Option ℝ

/-- playerdb.rs RatingDB::get_stats, numeric part. -/
def RatingDB.get_stats (self : RatingDB) : StatsReport :=
  let st := self.stats
  { pred_rate := f64div (100 * (st.glicko_predicted : ℝ)) (st.glicko_guess : ℝ)
    mse := f64div st.glicko_mse_accum st.glicko_mse_total
    pred_rate_g2 := f64div (100 * (st.glicko2_predicted : ℝ)) (st.glicko2_guess : ℝ)
    mse_g2 := f64div st.glicko2_mse_accum st.glicko2_mse_total
    pred_rate_l2 := f64div (100 * (st.ligcko2_predicted : ℝ)) (st.ligcko2_guess : ℝ)
    mse_l2 := f64div st.ligcko2_mse_accum st.ligcko2_mse_total
    lichess_pred_rate := f64div (100 * (st.lichess_predicted : ℝ)) (st.lichess_guess : ℝ) }

/-- playerdb.rs RatingDB::stats_reset: replace the accumulator wholesale. -/
def RatingDB.stats_reset (self : RatingDB) : RatingDB :=
  { self with stats := StatsDB.new }

/-- The constant root finder used to instantiate witnesses. -/
def solver0 : Solver := fun _ _ _ => .ok 0

/-- A root finder that always fails to converge, for witnesses about error
propagation. -/
def solverErr : Solver := fun _ _ _ => .error .noConvergency

/-! Helper lemmas. -/

theorem except_bind_ok {α β : Type} (a : α) (f : α → Except UpdateError β) :
    (Except.ok a >>= f) = f a := rfl

theorem except_bind_err {α β : Type} (e : UpdateError) (f : α → Except UpdateError β) :
    ((Except.error e : Except UpdateError α) >>= f) = Except.error e := rfl

theorem logistic_rpow_compl (c : ℝ) :
    1 / (1 + (10 : ℝ) ^ (-c)) + 1 / (1 + (10 : ℝ) ^ c) = 1 := by
  have hp : (0 : ℝ) < (10 : ℝ) ^ c := Real.rpow_pos_of_pos (by norm_num) c
  rw [Real.rpow_neg (by norm_num : (0 : ℝ) ≤ 10)]
  have hp0 : ((10 : ℝ) ^ c) ≠ 0 := ne_of_gt hp
  have h1 : (1 + ((10 : ℝ) ^ c)⁻¹) ≠ 0 := by positivity
  have h2 : (1 + (10 : ℝ) ^ c) ≠ 0 := by positivity
  field_simp
  ring

theorem logistic_exp_compl (c : ℝ) :
    1 / (1 + Real.exp (-c)) + 1 / (1 + Real.exp c) = 1 := by
  have hp : (0 : ℝ) < Real.exp c := Real.exp_pos c
  rw [Real.exp_neg]
  have hp0 : Real.exp c ≠ 0 := ne_of_gt hp
  have h1 : (1 + (Real.exp c)⁻¹) ≠ 0 := by positivity
  have h2 : (1 + Real.exp c) ≠ 0 := by positivity
  field_simp
  ring

theorem glicko_calc_e_compl (rd r1 r2 : ℝ) :
    GlickoRating.calc_e rd r1 r2 + GlickoRating.calc_e rd r2 r1 = 1 := by
  unfold GlickoRating.calc_e
  have h := logistic_rpow_compl (GlickoRating.calc_g rd * (r2 - r1) / 400)
  rw [show -GlickoRating.calc_g rd * (r2 - r1) / 400
        = -(GlickoRating.calc_g rd * (r2 - r1) / 400) by ring,
      show -GlickoRating.calc_g rd * (r1 - r2) / 400
        = GlickoRating.calc_g rd * (r2 - r1) / 400 by ring]
  exact h

theorem glicko2_calc_e_compl (phi r1 r2 : ℝ) :
    Glicko2Rating.calc_e phi r1 r2 + Glicko2Rating.calc_e phi r2 r1 = 1 := by
  unfold Glicko2Rating.calc_e
  have h := logistic_exp_compl (Glicko2Rating.calc_g phi * (r2 - r1))
  rw [show -Glicko2Rating.calc_g phi * (r2 - r1)
        = -(Glicko2Rating.calc_g phi * (r2 - r1)) by ring,
      show -Glicko2Rating.calc_g phi * (r1 - r2)
        = Glicko2Rating.calc_g phi * (r2 - r1) by ring]
  exact h

theorem volF_first_probe_pos (d p v a : ℝ) (hv : 0 < v) :
    0 < volF d p v a Glicko2Rating.TAU (a - 1 * Glicko2Rating.TAU) := by
  have hTAU : Glicko2Rating.TAU = 3 / 4 := by norm_num [Glicko2Rating.TAU]
  unfold volF
  set u := Real.exp (a - 1 * Glicko2Rating.TAU) with hu_def
  have hu : 0 < u := Real.exp_pos _
  have hS : 0 < p ^ 2 + v := by positivity
  have hden : (0 : ℝ) < 2 * (p ^ 2 + v + u) ^ 2 := by positivity
  have h1 : -(1 / 2 : ℝ) ≤ u * (d ^ 2 - p ^ 2 - v - u) / (2 * (p ^ 2 + v + u) ^ 2) := by
    rw [le_div_iff₀ hden]
    nlinarith [mul_nonneg hu.le (sq_nonneg d),
      mul_pos hS (by linarith : (0 : ℝ) < p ^ 2 + v + u)]
  have h2 : (a - 1 * Glicko2Rating.TAU - a) / Glicko2Rating.TAU ^ 2 = -(4 / 3) := by
    rw [hTAU, show a - 1 * (3 / 4 : ℝ) - a = -(3 / 4) by ring]
    norm_num
  rw [h2]
  linarith

theorem bracketSearch_exit_one (f : ℝ → ℝ) (a tau : ℝ) (fuel : ℕ) (hfuel : 1 ≤ fuel)
    (h : ¬ f (a - 1 * tau) < 0) :
    bracketSearch f a tau fuel 1 = some (a - 1 * tau) := by
  obtain ⟨m, rfl⟩ : ∃ m, fuel = m + 1 := ⟨fuel - 1, by omega⟩
  simp only [bracketSearch]
  rw [if_neg h]

theorem glicko_calc_g_pos (rd : ℝ) : 0 < GlickoRating.calc_g rd := by
  unfold GlickoRating.calc_g
  have harg : (0 : ℝ) < 1 + 3 * GlickoRating.Q ^ 2 * rd ^ 2 / Real.pi ^ 2 := by
    have hx : (0 : ℝ) ≤ 3 * GlickoRating.Q ^ 2 * rd ^ 2 / Real.pi ^ 2 :=
      div_nonneg (by positivity) (sq_nonneg Real.pi)
    linarith
  have h1 : (0 : ℝ) < Real.sqrt (1 + 3 * GlickoRating.Q ^ 2 * rd ^ 2 / Real.pi ^ 2) :=
    Real.sqrt_pos.2 harg
  positivity

theorem glicko_calc_g_le_one (rd : ℝ) : GlickoRating.calc_g rd ≤ 1 := by
  unfold GlickoRating.calc_g
  have hx : (0 : ℝ) ≤ 3 * GlickoRating.Q ^ 2 * rd ^ 2 / Real.pi ^ 2 :=
    div_nonneg (by positivity) (sq_nonneg Real.pi)
  have hs1 : (1 : ℝ) ≤ Real.sqrt (1 + 3 * GlickoRating.Q ^ 2 * rd ^ 2 / Real.pi ^ 2) := by
    have h := Real.sqrt_le_sqrt (show (1 : ℝ) ≤ 1 + 3 * GlickoRating.Q ^ 2 * rd ^ 2 / Real.pi ^ 2
      by linarith)
    rwa [Real.sqrt_one] at h
  rw [div_le_one (by linarith)]
  exact hs1

theorem glicko_calc_e_pos (rd r1 r2 : ℝ) : 0 < GlickoRating.calc_e rd r1 r2 := by
  unfold GlickoRating.calc_e
  have hp : (0 : ℝ) < (10 : ℝ) ^ (-GlickoRating.calc_g rd * (r2 - r1) / 400) :=
    Real.rpow_pos_of_pos (by norm_num) _
  positivity

theorem glicko_calc_e_lt_one (rd r1 r2 : ℝ) : GlickoRating.calc_e rd r1 r2 < 1 := by
  unfold GlickoRating.calc_e
  have hp : (0 : ℝ) < (10 : ℝ) ^ (-GlickoRating.calc_g rd * (r2 - r1) / 400) :=
    Real.rpow_pos_of_pos (by norm_num) _
  rw [div_lt_one (by linarith)]
  linarith

/-- C6: for every score in {0, 0.5, 1}, any two Classic states with deviations
in [30, 350], and nonnegative elapsed time for the updating player, the Classic
update yields a deviation in [30, 350], and the rating stays finite in the
concrete sense that it moves by at most Q * 350^2 (about 705 points). -/
theorem glicko_update_bounds (s : GlickoRating) (P : Player) (score : ℝ) (t1 t2 : ℤ)
    (hscore : score = 0 ∨ score = 1 / 2 ∨ score = 1)
    (hrd1 : 30 ≤ s.rd) (hrd2 : s.rd ≤ 350)
    (hord1 : 30 ≤ P.g1rating.rd) (hord2 : P.g1rating.rd ≤ 350)
    (hdays : t1 ≤ t2) :
    30 ≤ (s.update_with_result score t1 t2 P).rd ∧
    (s.update_with_result score t1 t2 P).rd ≤ 350 ∧
    |(s.update_with_result score t1 t2 P).r - s.r| ≤ GlickoRating.Q * 350 ^ 2 := by
  have hdaysR : 0 ≤ calcDays t1 t2 := by
    unfold calcDays
    have h0 : (0 : ℝ) ≤ ((t2 - t1 : ℤ) : ℝ) := by exact_mod_cast sub_nonneg.2 hdays
    positivity
  unfold GlickoRating.update_with_result
  dsimp only
  set pre := s.calc_new_rd (calcDays t1 t2) with hpre_def
  set prehis := P.g1rating.calc_new_rd (calcDays P.mtime t2) with hprehis_def
  set e := GlickoRating.calc_e prehis P.g1rating.r s.r with he_def
  set g := GlickoRating.calc_g prehis with hg_def
  have hpre_pos : 0 < pre := by
    rw [hpre_def]
    unfold GlickoRating.calc_new_rd
    apply lt_min _ (by norm_num)
    apply Real.sqrt_pos.2
    have hC : (0 : ℝ) ≤ calcDays t1 t2 * GlickoRating.C_2 := by
      apply mul_nonneg hdaysR
      norm_num [GlickoRating.C_2, GlickoRating.DAYS_UNTIL_UNRATED]
    nlinarith
  have hpre_le : pre ≤ 350 := min_le_right _ _
  have he0 : 0 < e := glicko_calc_e_pos _ _ _
  have he1 : e < 1 := glicko_calc_e_lt_one _ _ _
  have hg0 : 0 < g := glicko_calc_g_pos _
  have hg1 : g ≤ 1 := glicko_calc_g_le_one _
  have hQ : (0 : ℝ) < GlickoRating.Q := by norm_num [GlickoRating.Q]
  set d2 := 1 / (GlickoRating.Q ^ 2 * g ^ 2 * e * (1 - e)) with hd2_def
  have hd2 : 0 < d2 := by
    rw [hd2_def]
    exact one_div_pos.2
      (mul_pos (mul_pos (mul_pos (pow_pos hQ 2) (pow_pos hg0 2)) he0) (by linarith))
  have h1pre : (0 : ℝ) < 1 / pre ^ 2 := one_div_pos.2 (pow_pos hpre_pos 2)
  have h1d2 : (0 : ℝ) < 1 / d2 := one_div_pos.2 hd2
  have hsum : 0 < 1 / pre ^ 2 + 1 / d2 := add_pos h1pre h1d2
  have hfrac : 1 / (1 / pre ^ 2 + 1 / d2) ≤ pre ^ 2 := by
    have h := one_div_le_one_div_of_le h1pre (by linarith : 1 / pre ^ 2 ≤ 1 / pre ^ 2 + 1 / d2)
    rwa [one_div_one_div (pre ^ 2)] at h
  have hnewrd_le : Real.sqrt (1 / (1 / pre ^ 2 + 1 / d2)) ≤ pre := by
    calc Real.sqrt (1 / (1 / pre ^ 2 + 1 / d2)) ≤ Real.sqrt (pre ^ 2) :=
          Real.sqrt_le_sqrt hfrac
    _ = pre := Real.sqrt_sq hpre_pos.le
  refine ⟨le_max_right _ _, max_le (by linarith) (by norm_num), ?_⟩
  rw [add_sub_cancel_left]
  set q_mul := GlickoRating.Q / (1 / pre ^ 2 + 1 / d2) with hq_def
  have hqnn : 0 ≤ q_mul := by rw [hq_def]; exact div_nonneg hQ.le hsum.le
  have hq_le : q_mul ≤ GlickoRating.Q * pre ^ 2 := by
    rw [hq_def, div_eq_mul_one_div]
    exact mul_le_mul_of_nonneg_left hfrac hQ.le
  have hsc : 0 ≤ score ∧ score ≤ 1 := by
    rcases hscore with h | h | h <;> rw [h] <;> norm_num
  have habs : |score - e| ≤ 1 := abs_le.2 ⟨by linarith [hsc.1], by linarith [hsc.2]⟩
  rw [abs_mul, abs_mul, abs_of_nonneg hqnn, abs_of_nonneg hg0.le]
  have s1 : q_mul * g ≤ q_mul := by
    calc q_mul * g ≤ q_mul * 1 := mul_le_mul_of_nonneg_left hg1 hqnn
    _ = q_mul := mul_one _
  have s2 : q_mul * g * |score - e| ≤ q_mul * g := by
    calc q_mul * g * |score - e| ≤ q_mul * g * 1 :=
          mul_le_mul_of_nonneg_left habs (mul_nonneg hqnn hg0.le)
    _ = q_mul * g := mul_one _
  have s3 : GlickoRating.Q * pre ^ 2 ≤ GlickoRating.Q * 350 ^ 2 :=
    mul_le_mul_of_nonneg_left (by nlinarith) hQ.le
  linarith

/-- C6 witness: the bounds at a concrete decisive game between two fresh
players. -/
theorem glicko_update_bounds_witness :
    30 ≤ (GlickoRating.new.update_with_result 1 0 0 (Player.new 0)).rd ∧
    (GlickoRating.new.update_with_result 1 0 0 (Player.new 0)).rd ≤ 350 ∧
    |(GlickoRating.new.update_with_result 1 0 0 (Player.new 0)).r - GlickoRating.new.r|
      ≤ GlickoRating.Q * 350 ^ 2 :=
  glicko_update_bounds GlickoRating.new (Player.new 0) 1 0 0 (Or.inr (Or.inr rfl))
    (by norm_num [GlickoRating.new]) (by norm_num [GlickoRating.new])
    (by norm_num [Player.new, GlickoRating.new]) (by norm_num [Player.new, GlickoRating.new])
    (le_refl 0)

/-! Claim theorems. -/

/-- C3 counterexample: starting from the minimum claimed deviation 30, an idle
player queried after the 1825-day idle horizon has Classic deviation below 348
(so not 350 within floating tolerance), and the growth constant C_2 differs
from (350^2 - 30^2) / 1825: glicko.rs derives C_2 from 50, not 30. -/
theorem glicko_idle_decay_30_counterexample :
    GlickoRating.calc_new_rd ⟨1500, 30⟩ 1825 < 348 ∧
    GlickoRating.C_2 ≠ (350 ^ 2 - 30 ^ 2) / 1825 := by
  constructor
  · unfold GlickoRating.calc_new_rd
    have h : Real.sqrt (((⟨1500, 30⟩ : GlickoRating).rd) ^ 2 + 1825 * GlickoRating.C_2)
        < 348 := by
      rw [show ((⟨1500, 30⟩ : GlickoRating).rd) ^ 2 + 1825 * GlickoRating.C_2 = (120900 : ℝ) by
        norm_num [GlickoRating.C_2, GlickoRating.DAYS_UNTIL_UNRATED]]
      rw [show (348 : ℝ) = Real.sqrt (348 ^ 2) by
        rw [Real.sqrt_sq (by norm_num : (0 : ℝ) ≤ 348)]]
      exact Real.sqrt_lt_sqrt (by norm_num) (by norm_num)
    exact lt_of_le_of_lt (min_le_left _ _) h
  · norm_num [GlickoRating.C_2, GlickoRating.DAYS_UNTIL_UNRATED]

/-- C3 (amended): for every initial Classic deviation at least 50, the
deviation queried after the idle horizon of 5 years (1825 days) is exactly 350
(the cap), and the growth constant satisfies c^2 = (350^2 - 50^2) / 1825. -/
theorem glicko_idle_decay_returns_to_350 :
    (∀ g : GlickoRating, 50 ≤ g.rd → g.calc_new_rd 1825 = 350) ∧
    GlickoRating.C_2 = (350 ^ 2 - 50 ^ 2) / 1825 := by
  constructor
  · intro g hg
    unfold GlickoRating.calc_new_rd
    have h2500 : (2500 : ℝ) ≤ g.rd ^ 2 := by nlinarith
    have hC : (1825 : ℝ) * GlickoRating.C_2 = 120000 := by
      norm_num [GlickoRating.C_2, GlickoRating.DAYS_UNTIL_UNRATED]
    have h350 : (350 : ℝ) ≤ Real.sqrt (g.rd ^ 2 + 1825 * GlickoRating.C_2) := by
      rw [show (350 : ℝ) = Real.sqrt (350 ^ 2) by
        rw [Real.sqrt_sq (by norm_num : (0 : ℝ) ≤ 350)]]
      exact Real.sqrt_le_sqrt (by nlinarith)
    exact min_eq_right h350
  · norm_num [GlickoRating.C_2, GlickoRating.DAYS_UNTIL_UNRATED]

/-- C3 witness: the amended statement applied at initial deviation 50. -/
theorem glicko_idle_decay_returns_to_350_witness :
    (50 : ℝ) ≤ (GlickoRating.mk 1500 50).rd ∧
    GlickoRating.calc_new_rd ⟨1500, 50⟩ 1825 = 350 :=
  ⟨le_refl _, glicko_idle_decay_returns_to_350.1 ⟨1500, 50⟩ (le_refl _)⟩

/-- C7: the smooth expectation functions of the Classic (glicko.rs expect,
including elapsed-time decay of both deviations) and Iterative (glicko2.rs
expect) models are complementary; in the real-number model the sum is
exactly 1 for all states and times. -/
theorem expect_complementary (pa pb : Player) (t : ℤ) :
    pa.g1rating.expect pa.mtime t pb + pb.g1rating.expect pb.mtime t pa = 1 ∧
    pa.g2rating.expect pb + pb.g2rating.expect pa = 1 := by
  constructor
  · simp only [GlickoRating.expect, GlickoRating.calc_expect]
    rw [add_comm ((pa.g1rating.calc_new_rd (calcDays pa.mtime t)) ^ 2)
        ((pb.g1rating.calc_new_rd (calcDays pb.mtime t)) ^ 2)]
    exact glicko_calc_e_compl _ _ _
  · simp only [Glicko2Rating.expect, Glicko2Rating.calc_expect]
    rw [add_comm (Real.sqrt (pa.g2rating.phi ^ 2 + pa.g2rating.sigma ^ 2) ^ 2)
        (Real.sqrt (pb.g2rating.phi ^ 2 + pb.g2rating.sigma ^ 2) ^ 2)]
    exact glicko2_calc_e_compl _ _ _

/-- C8: get_stats on a freshly reset accumulator divides zero counters by zero
observation counts; the f64 results are NaN for every per-model prediction rate
and MSE, modelled as the explicit none marker, and the computation is total
(no crash path exists in the source). -/
theorem stats_reset_summary_nodata (d : RatingDB) :
    (d.stats_reset).get_stats = ⟨none, none, none, none, none, none, none⟩ := by
  unfold RatingDB.stats_reset RatingDB.get_stats f64div StatsDB.new
  norm_num

/-- C4: the bracket-lowering loop in glicko2.rs and ligcko2.rs has no iteration
cap in the source; modelled with any fuel of at least one step, it exits at the
very first probe k = 1, because v > 0 forces f(a - tau) > 0.  The divergence
outcome none (and a fortiori any capped failure mode) is never reached; the
source has no named error for this loop. -/
theorem bracket_search_no_cap_terminates (delta phi v a : ℝ) (fuel : ℕ)
    (hv : 0 < v) (hfuel : 1 ≤ fuel) :
    bracketSearch (volF delta phi v a Glicko2Rating.TAU) a Glicko2Rating.TAU fuel 1
      = some (a - 1 * Glicko2Rating.TAU) ∧
    bracketSearch (volF delta phi v a Ligcko2Rating.TAU) a Ligcko2Rating.TAU fuel 1
      = some (a - 1 * Ligcko2Rating.TAU) := by
  have hpos := volF_first_probe_pos delta phi v a hv
  have hterm := bracketSearch_exit_one (volF delta phi v a Glicko2Rating.TAU) a
    Glicko2Rating.TAU fuel hfuel (not_lt.2 hpos.le)
  have hLG : Ligcko2Rating.TAU = Glicko2Rating.TAU := rfl
  exact ⟨hterm, by rw [hLG]; exact hterm⟩

/-- C4 witness: the loop exits immediately at concrete parameters. -/
theorem bracket_search_no_cap_terminates_witness :
    (0 : ℝ) < 1 ∧
    bracketSearch (volF 0 0 1 0 Glicko2Rating.TAU) 0 Glicko2Rating.TAU 1 1
      = some (0 - 1 * Glicko2Rating.TAU) :=
  ⟨by norm_num, (bracket_search_no_cap_terminates 0 0 1 0 1 (by norm_num) (le_refl 1)).1⟩

theorem glicko2_calc_g_pos (phi : ℝ) : 0 < Glicko2Rating.calc_g phi := by
  unfold Glicko2Rating.calc_g
  have harg : (0 : ℝ) < 1 + 3 * phi ^ 2 / Real.pi ^ 2 := by
    have hx : (0 : ℝ) ≤ 3 * phi ^ 2 / Real.pi ^ 2 :=
      div_nonneg (by positivity) (sq_nonneg Real.pi)
    linarith
  have h1 : (0 : ℝ) < Real.sqrt (1 + 3 * phi ^ 2 / Real.pi ^ 2) := Real.sqrt_pos.2 harg
  positivity

theorem glicko2_calc_e_pos (phi r1 r2 : ℝ) : 0 < Glicko2Rating.calc_e phi r1 r2 := by
  unfold Glicko2Rating.calc_e
  have hp : (0 : ℝ) < Real.exp (-Glicko2Rating.calc_g phi * (r2 - r1)) := Real.exp_pos _
  positivity

theorem glicko2_calc_e_lt_one (phi r1 r2 : ℝ) : Glicko2Rating.calc_e phi r1 r2 < 1 := by
  unfold Glicko2Rating.calc_e
  have hp : (0 : ℝ) < Real.exp (-Glicko2Rating.calc_g phi * (r2 - r1)) := Real.exp_pos _
  rw [div_lt_one (by linarith)]
  linarith

theorem glicko2_eVal_half (s o : Glicko2Rating) (h : s.mu = o.mu) :
    Glicko2Rating.eVal s o = 1 / 2 := by
  unfold Glicko2Rating.eVal Glicko2Rating.calc_e
  rw [h, show -Glicko2Rating.calc_g o.phi * (o.mu - o.mu) = 0 by ring, Real.exp_zero]
  norm_num

theorem glicko2_vVal_pos (s o : Glicko2Rating) : 0 < Glicko2Rating.vVal s o := by
  have he0 : 0 < Glicko2Rating.eVal s o := glicko2_calc_e_pos o.phi o.mu s.mu
  have he1 : Glicko2Rating.eVal s o < 1 := glicko2_calc_e_lt_one o.phi o.mu s.mu
  have hg : 0 < Glicko2Rating.gVal o := glicko2_calc_g_pos o.phi
  unfold Glicko2Rating.vVal
  exact one_div_pos.2 (mul_pos (mul_pos (pow_pos hg 2) he0) (by linarith))

theorem glicko2_deltaVal_draw (s o : Glicko2Rating) (h : s.mu = o.mu) :
    Glicko2Rating.deltaVal s o (1 / 2) = 0 := by
  unfold Glicko2Rating.deltaVal
  rw [glicko2_eVal_half s o h]
  ring

theorem glicko2_bVal_draw (s o : Glicko2Rating) (fuel : ℕ) (h : s.mu = o.mu) (hf : 1 ≤ fuel) :
    Glicko2Rating.bVal s o (1 / 2) fuel
      = some (Glicko2Rating.aVal s - 1 * Glicko2Rating.TAU) := by
  have hv := glicko2_vVal_pos s o
  have hle : (Glicko2Rating.deltaVal s o (1 / 2)) ^ 2 ≤ s.phi ^ 2 + Glicko2Rating.vVal s o := by
    rw [glicko2_deltaVal_draw s o h]
    nlinarith [sq_nonneg s.phi]
  unfold Glicko2Rating.bVal computeB
  rw [if_neg (not_lt.2 hle)]
  exact bracketSearch_exit_one _ _ _ fuel hf (not_lt.2 (volF_first_probe_pos _ _ _ _ hv).le)

theorem glicko2_update_draw_ok (s : Glicko2Rating) (P : Player) (fuel : ℕ)
    (h : s.mu = P.g2rating.mu) (hf : 1 ≤ fuel) :
    Glicko2Rating.update_with_result solver0 fuel s (1 / 2) P
      = .ok (Glicko2Rating.applyRoot s (1 / 2) P.g2rating 0) := by
  simp only [Glicko2Rating.update_with_result]
  rw [glicko2_bVal_draw s P.g2rating fuel h hf]
  rfl

theorem glicko2_update_draw_err (s : Glicko2Rating) (P : Player) (fuel : ℕ)
    (h : s.mu = P.g2rating.mu) (hf : 1 ≤ fuel) :
    Glicko2Rating.update_with_result solverErr fuel s (1 / 2) P
      = .error .noConvergency := by
  simp only [Glicko2Rating.update_with_result]
  rw [glicko2_bVal_draw s P.g2rating fuel h hf]
  rfl

theorem ligcko2_calc_g_pos (phi : ℝ) : 0 < Ligcko2Rating.calc_g phi := by
  unfold Ligcko2Rating.calc_g
  have harg : (0 : ℝ) < 1 + 3 * phi ^ 2 / Real.pi ^ 2 := by
    have hx : (0 : ℝ) ≤ 3 * phi ^ 2 / Real.pi ^ 2 :=
      div_nonneg (by positivity) (sq_nonneg Real.pi)
    linarith
  have h1 : (0 : ℝ) < Real.sqrt (1 + 3 * phi ^ 2 / Real.pi ^ 2) := Real.sqrt_pos.2 harg
  positivity

theorem ligcko2_calc_e_pos (phi r1 r2 : ℝ) : 0 < Ligcko2Rating.calc_e phi r1 r2 := by
  unfold Ligcko2Rating.calc_e
  have hp : (0 : ℝ) < Real.exp (-Ligcko2Rating.calc_g phi * (r2 - r1)) := Real.exp_pos _
  positivity

theorem ligcko2_calc_e_lt_one (phi r1 r2 : ℝ) : Ligcko2Rating.calc_e phi r1 r2 < 1 := by
  unfold Ligcko2Rating.calc_e
  have hp : (0 : ℝ) < Real.exp (-Ligcko2Rating.calc_g phi * (r2 - r1)) := Real.exp_pos _
  rw [div_lt_one (by linarith)]
  linarith

theorem ligcko2_eVal_half (s o : Ligcko2Rating) (h : s.mu = o.mu) :
    Ligcko2Rating.eVal s o = 1 / 2 := by
  unfold Ligcko2Rating.eVal Ligcko2Rating.calc_e
  rw [h, show -Ligcko2Rating.calc_g o.phi * (o.mu - o.mu) = 0 by ring, Real.exp_zero]
  norm_num

theorem ligcko2_vVal_pos (s o : Ligcko2Rating) : 0 < Ligcko2Rating.vVal s o := by
  have he0 : 0 < Ligcko2Rating.eVal s o := ligcko2_calc_e_pos o.phi o.mu s.mu
  have he1 : Ligcko2Rating.eVal s o < 1 := ligcko2_calc_e_lt_one o.phi o.mu s.mu
  have hg : 0 < Ligcko2Rating.gVal o := ligcko2_calc_g_pos o.phi
  unfold Ligcko2Rating.vVal
  exact one_div_pos.2 (mul_pos (mul_pos (pow_pos hg 2) he0) (by linarith))

theorem ligcko2_deltaVal_draw (s o : Ligcko2Rating) (h : s.mu = o.mu) :
    Ligcko2Rating.deltaVal s o (1 / 2) = 0 := by
  unfold Ligcko2Rating.deltaVal
  rw [ligcko2_eVal_half s o h]
  ring

theorem ligcko2_bVal_draw (s o : Ligcko2Rating) (fuel : ℕ) (h : s.mu = o.mu) (hf : 1 ≤ fuel) :
    Ligcko2Rating.bVal s o (1 / 2) fuel
      = some (Ligcko2Rating.aVal s - 1 * Ligcko2Rating.TAU) := by
  have hv := ligcko2_vVal_pos s o
  have hle : (Ligcko2Rating.deltaVal s o (1 / 2)) ^ 2 ≤ s.phi ^ 2 + Ligcko2Rating.vVal s o := by
    rw [ligcko2_deltaVal_draw s o h]
    nlinarith [sq_nonneg s.phi]
  unfold Ligcko2Rating.bVal computeB
  rw [if_neg (not_lt.2 hle)]
  exact bracketSearch_exit_one _ _ _ fuel hf (not_lt.2 (volF_first_probe_pos _ _ _ _ hv).le)

theorem ligcko2_update_draw_ok (s : Ligcko2Rating) (P : Player) (t1 t2 : ℤ) (fuel : ℕ)
    (h : s.mu = P.l2rating.mu) (hf : 1 ≤ fuel) :
    Ligcko2Rating.update_with_result solver0 fuel s (1 / 2) t1 t2 P
      = .ok (Ligcko2Rating.applyRoot s (1 / 2) P.l2rating (calcDays t1 t2) 0) := by
  simp only [Ligcko2Rating.update_with_result]
  rw [ligcko2_bVal_draw s P.l2rating fuel h hf]
  rfl

theorem ligcko2_update_draw_err (s : Ligcko2Rating) (P : Player) (t1 t2 : ℤ) (fuel : ℕ)
    (h : s.mu = P.l2rating.mu) (hf : 1 ≤ fuel) :
    Ligcko2Rating.update_with_result solverErr fuel s (1 / 2) t1 t2 P
      = .error .noConvergency := by
  simp only [Ligcko2Rating.update_with_result]
  rw [ligcko2_bVal_draw s P.l2rating fuel h hf]
  rfl

theorem volF_delta0_at0 (p v a tau : ℝ) (h : p ^ 2 + v + 1 ≠ 0) :
    volF 0 p v a tau 0 = -(1 / (2 * (p ^ 2 + v + 1))) - (0 - a) / tau ^ 2 := by
  unfold volF
  rw [Real.exp_zero]
  congr 1
  have hX2 : ((p ^ 2 + v + 1) : ℝ) ^ 2 ≠ 0 := pow_ne_zero 2 h
  have h2 : (2 : ℝ) * (p ^ 2 + v + 1) ^ 2 ≠ 0 := mul_ne_zero two_ne_zero hX2
  rw [show -(1 / (2 * (p ^ 2 + v + 1))) = (-1) / (2 * (p ^ 2 + v + 1)) by ring]
  rw [div_eq_div_iff h2 (mul_ne_zero two_ne_zero h)]
  ring

/-- C2 counterexample: at a concrete state (mu 0, phi 1, sigma 0.06), a default
opponent, a drawn score and one full elapsed rating period, the volatility
closure actually used by ligcko2.rs update_with_result (raw stored phi)
differs at the probe point 0 from the closure the spec describes (pre-decayed
phi via calc_new_phi): the pre-decay is commented out in the source. -/
theorem ligcko2_predecay_counterexample :
    Ligcko2Rating.fVal ⟨0, 1, 0.06⟩ Ligcko2Rating.new (1 / 2) 0 ≠
    Ligcko2Rating.fValPredecay ⟨0, 1, 0.06⟩ Ligcko2Rating.new (1 / 2)
      Ligcko2Rating.RATING_PERIOD_DAYS 0 := by
  have hmu : (⟨0, 1, 0.06⟩ : Ligcko2Rating).mu = Ligcko2Rating.new.mu := rfl
  have hδ := ligcko2_deltaVal_draw ⟨0, 1, 0.06⟩ Ligcko2Rating.new hmu
  have hv := ligcko2_vVal_pos ⟨0, 1, 0.06⟩ Ligcko2Rating.new
  have hphi : (⟨0, 1, 0.06⟩ : Ligcko2Rating).phi = 1 := rfl
  have hsig : (⟨0, 1, 0.06⟩ : Ligcko2Rating).sigma = 0.06 := rfl
  have hphiB : (Ligcko2Rating.calc_new_phi ⟨0, 1, 0.06⟩ Ligcko2Rating.RATING_PERIOD_DAYS) ^ 2
      = 1.0036 := by
    unfold Ligcko2Rating.calc_new_phi
    rw [hphi, hsig]
    rw [show (1 : ℝ) ^ 2 + Ligcko2Rating.RATING_PERIOD_DAYS / Ligcko2Rating.RATING_PERIOD_DAYS
        * (0.06 : ℝ) ^ 2 = 1.0036 by norm_num [Ligcko2Rating.RATING_PERIOD_DAYS]]
    have hle : Real.sqrt 1.0036 ≤ Ligcko2Rating.MAX_PHI := by
      have h1 : Real.sqrt (1.0036 : ℝ) ≤ Real.sqrt (Ligcko2Rating.MAX_PHI ^ 2) :=
        Real.sqrt_le_sqrt (by norm_num [Ligcko2Rating.MAX_PHI, Ligcko2Rating.QF])
      rwa [Real.sqrt_sq (by norm_num [Ligcko2Rating.MAX_PHI, Ligcko2Rating.QF] :
        (0 : ℝ) ≤ Ligcko2Rating.MAX_PHI)] at h1
    rw [min_eq_left hle]
    exact Real.sq_sqrt (by norm_num)
  unfold Ligcko2Rating.fVal Ligcko2Rating.fValPredecay
  rw [hδ]
  set v := Ligcko2Rating.vVal ⟨0, 1, 0.06⟩ Ligcko2Rating.new with hv_def
  set a := Ligcko2Rating.aVal ⟨0, 1, 0.06⟩ with ha_def
  have hX1 : (⟨0, 1, 0.06⟩ : Ligcko2Rating).phi ^ 2 + v + 1 ≠ 0 := by
    rw [hphi]; nlinarith
  have hX2 : (Ligcko2Rating.calc_new_phi ⟨0, 1, 0.06⟩ Ligcko2Rating.RATING_PERIOD_DAYS) ^ 2
      + v + 1 ≠ 0 := by
    rw [hphiB]; nlinarith
  rw [volF_delta0_at0 _ v a _ hX1, volF_delta0_at0 _ v a _ hX2, hphi, hphiB]
  intro heq
  have h1 : (0 : ℝ) < 2 * ((1 : ℝ) ^ 2 + v + 1) := by nlinarith
  have h2 : (0 : ℝ) < 2 * ((1.0036 : ℝ) + v + 1) := by nlinarith
  have heq2 : 1 / (2 * ((1 : ℝ) ^ 2 + v + 1)) = 1 / (2 * ((1.0036 : ℝ) + v + 1)) := by
    linarith
  rw [div_eq_div_iff h1.ne' h2.ne'] at heq2
  norm_num at heq2

/-- C2 (amended): ligcko2.rs update_with_result applies no elapsed-time
pre-decay to the player's own phi; the raw stored phi enters the volatility
computation, so the solver inputs and hence the newly solved sigma are
independent of the elapsed time; elapsed days enter only through phi_star,
which uses the new sigma.  Formally: two successful updates of the same state
that differ only in the timestamps produce the same sigma. -/
theorem ligcko2_sigma_time_independent (solver : Solver) (fuel : ℕ) (s : Ligcko2Rating)
    (score : ℝ) (P : Player) (o1 n1 o2 n2 : ℤ) (r1 r2 : Ligcko2Rating)
    (h1 : Ligcko2Rating.update_with_result solver fuel s score o1 n1 P = .ok r1)
    (h2 : Ligcko2Rating.update_with_result solver fuel s score o2 n2 P = .ok r2) :
    r1.sigma = r2.sigma := by
  simp only [Ligcko2Rating.update_with_result] at h1 h2
  cases hb : Ligcko2Rating.bVal s P.l2rating score fuel with
  | none =>
    rw [hb] at h1
    exact Except.noConfusion h1
  | some b =>
    rw [hb] at h1 h2
    dsimp only at h1 h2
    cases hs : solver (Ligcko2Rating.fVal s P.l2rating score) (Ligcko2Rating.aVal s) b with
    | error e =>
      rw [hs] at h1
      exact Except.noConfusion h1
    | ok root =>
      rw [hs] at h1 h2
      dsimp only at h1 h2
      have e1 : Ligcko2Rating.applyRoot s score P.l2rating (calcDays o1 n1) root = r1 :=
        Except.ok.inj h1
      have e2 : Ligcko2Rating.applyRoot s score P.l2rating (calcDays o2 n2) root = r2 :=
        Except.ok.inj h2
      rw [← e1, ← e2]
      rfl

/-- C2 witness: the amended statement at a concrete drawn game evaluated with
the constant root finder, once with zero elapsed time and once with one
elapsed day. -/
theorem ligcko2_sigma_time_independent_witness :
    ∃ r1 r2,
      Ligcko2Rating.update_with_result solver0 1 Ligcko2Rating.new (1 / 2) 0 0 (Player.new 0)
        = .ok r1 ∧
      Ligcko2Rating.update_with_result solver0 1 Ligcko2Rating.new (1 / 2) 0 86400 (Player.new 0)
        = .ok r2 ∧
      r1.sigma = r2.sigma := by
  have hu1 := ligcko2_update_draw_ok Ligcko2Rating.new (Player.new 0) 0 0 1 rfl (le_refl 1)
  have hu2 := ligcko2_update_draw_ok Ligcko2Rating.new (Player.new 0) 0 86400 1 rfl (le_refl 1)
  exact ⟨_, _, hu1, hu2,
    ligcko2_sigma_time_independent solver0 1 Ligcko2Rating.new (1 / 2) (Player.new 0)
      0 0 0 86400 _ _ hu1 hu2⟩

/-- C5: when the abstract root finder reports failure on the inputs the update
hands it, both iterative updates surface exactly that error and produce no
rating: the unwrap in the source is a fatal, loud failure, not a silently
wrong rating and not a silent skip. -/
theorem solver_failure_propagates (solver : Solver) (fuel : ℕ) (s2 : Glicko2Rating)
    (l2 : Ligcko2Rating) (score : ℝ) (P : Player) (t1 t2 : ℤ) (b c : ℝ) (e1 e2 : UpdateError) :
    (Glicko2Rating.bVal s2 P.g2rating score fuel = some b →
      solver (Glicko2Rating.fVal s2 P.g2rating score) (Glicko2Rating.aVal s2) b
        = .error e1 →
      Glicko2Rating.update_with_result solver fuel s2 score P = .error e1) ∧
    (Ligcko2Rating.bVal l2 P.l2rating score fuel = some c →
      solver (Ligcko2Rating.fVal l2 P.l2rating score) (Ligcko2Rating.aVal l2) c
        = .error e2 →
      Ligcko2Rating.update_with_result solver fuel l2 score t1 t2 P = .error e2) := by
  constructor
  · intro hb hs
    simp only [Glicko2Rating.update_with_result]
    rw [hb]
    dsimp only
    rw [hs]
  · intro hb hs
    simp only [Ligcko2Rating.update_with_result]
    rw [hb]
    dsimp only
    rw [hs]

/-- C5 witness: a non-converging root finder makes both updates fail with
noConvergency at a concrete drawn game between fresh players. -/
theorem solver_failure_propagates_witness :
    Glicko2Rating.update_with_result solverErr 1 Glicko2Rating.new (1 / 2) (Player.new 0)
      = .error .noConvergency ∧
    Ligcko2Rating.update_with_result solverErr 1 Ligcko2Rating.new (1 / 2) 0 0 (Player.new 0)
      = .error .noConvergency := by
  have hb2 := glicko2_bVal_draw Glicko2Rating.new (Player.new 0).g2rating 1 rfl (le_refl 1)
  have hbL := ligcko2_bVal_draw Ligcko2Rating.new (Player.new 0).l2rating 1 rfl (le_refl 1)
  have h := solver_failure_propagates solverErr 1 Glicko2Rating.new Ligcko2Rating.new (1 / 2)
    (Player.new 0) 0 0 (Glicko2Rating.aVal Glicko2Rating.new - 1 * Glicko2Rating.TAU)
    (Ligcko2Rating.aVal Ligcko2Rating.new - 1 * Ligcko2Rating.TAU) .noConvergency .noConvergency
  exact ⟨h.1 hb2 rfl, h.2 hbL rfl⟩

/-- C9: every successful IterativeContinuous update yields phi at least
60/173.7178 (the MIN_PHI floor, 60 on display scale) and sigma at most 0.1
(the MAX_VOLATILITY cap). -/
theorem ligcko2_update_phi_floor_sigma_cap (solver : Solver) (fuel : ℕ) (s : Ligcko2Rating)
    (score : ℝ) (t1 t2 : ℤ) (P : Player) (s' : Ligcko2Rating)
    (h : Ligcko2Rating.update_with_result solver fuel s score t1 t2 P = .ok s') :
    60 / 173.7178 ≤ s'.phi ∧ s'.sigma ≤ 0.1 := by
  simp only [Ligcko2Rating.update_with_result] at h
  cases hb : Ligcko2Rating.bVal s P.l2rating score fuel with
  | none =>
    rw [hb] at h
    exact Except.noConfusion h
  | some b =>
    rw [hb] at h
    dsimp only at h
    cases hs : solver (Ligcko2Rating.fVal s P.l2rating score) (Ligcko2Rating.aVal s) b with
    | error e =>
      rw [hs] at h
      exact Except.noConfusion h
    | ok root =>
      rw [hs] at h
      dsimp only at h
      have h' : Ligcko2Rating.applyRoot s score P.l2rating (calcDays t1 t2) root = s' :=
        Except.ok.inj h
      rw [← h']
      constructor
      · have hmin : Ligcko2Rating.MIN_PHI = 60 / 173.7178 := rfl
        rw [← hmin]
        exact le_max_right _ _
      · have hmax : Ligcko2Rating.MAX_VOLATILITY = 0.1 := rfl
        rw [← hmax]
        exact min_le_right _ _

/-- C9 witness: the floor and cap at a concrete drawn game evaluated with the
constant root finder. -/
theorem ligcko2_update_phi_floor_sigma_cap_witness :
    ∃ s', Ligcko2Rating.update_with_result solver0 1 Ligcko2Rating.new (1 / 2) 0 0 (Player.new 0)
        = .ok s' ∧ 60 / 173.7178 ≤ s'.phi ∧ s'.sigma ≤ 0.1 := by
  have hu := ligcko2_update_draw_ok Ligcko2Rating.new (Player.new 0) 0 0 1 rfl (le_refl 1)
  exact ⟨_, hu, ligcko2_update_phi_floor_sigma_cap solver0 1 Ligcko2Rating.new (1 / 2) 0 0
    (Player.new 0) _ hu⟩

theorem except_bind_ok_inv {α β : Type} {x : Except UpdateError α} {f : α → Except UpdateError β}
    {b : β} (h : (x >>= f) = .ok b) : ∃ a, x = .ok a ∧ f a = .ok b := by
  cases x with
  | error e => exact Except.noConfusion h
  | ok a => exact ⟨a, rfl, h⟩

theorem glicko2_applyRoot_mu_draw (s o : Glicko2Rating) (root : ℝ) (h : s.mu = o.mu) :
    (Glicko2Rating.applyRoot s (1 / 2) o root).mu = s.mu := by
  simp only [Glicko2Rating.applyRoot]
  rw [glicko2_eVal_half s o h]
  ring

theorem ligcko2_applyRoot_mu_draw (s o : Ligcko2Rating) (days root : ℝ) (h : s.mu = o.mu) :
    (Ligcko2Rating.applyRoot s (1 / 2) o days root).mu = s.mu := by
  simp only [Ligcko2Rating.applyRoot]
  rw [ligcko2_eVal_half s o h]
  ring

theorem player_update_ok_mtime (solver : Solver) (fuel : ℕ) (self : Player) (color : Color)
    (result : Outcome) (t : ℤ) (opp : Player) (stats : Option StatsDB)
    (lich : Option (ℤ × ℤ)) (p : Player) (s' : Option StatsDB)
    (h : Player.update_with_result solver fuel self color result t opp stats lich
      = .ok (p, s')) : p.mtime = t := by
  cases stats with
  | none =>
    simp only [Player.update_with_result] at h
    obtain ⟨st1, hst, h⟩ := except_bind_ok_inv h
    obtain ⟨g2v, hg2, h⟩ := except_bind_ok_inv h
    obtain ⟨l2v, hl2, h⟩ := except_bind_ok_inv h
    have hpair := Except.ok.inj h
    have hp : ({ g1rating := _, g2rating := g2v, l2rating := l2v, mtime := t } : Player) = p :=
      congrArg Prod.fst hpair
    rw [← hp]
  | some st =>
    simp only [Player.update_with_result] at h
    obtain ⟨st1, hst, h⟩ := except_bind_ok_inv h
    obtain ⟨g2v, hg2, h⟩ := except_bind_ok_inv h
    obtain ⟨l2v, hl2, h⟩ := except_bind_ok_inv h
    have hpair := Except.ok.inj h
    have hp : ({ g1rating := _, g2rating := g2v, l2rating := l2v, mtime := t } : Player) = p :=
      congrArg Prod.fst hpair
    rw [← hp]

theorem player_update_draw_white (self opp : Player) (t : ℤ) (st : StatsDB) (wr br : ℤ)
    (fuel : ℕ) (hf : 1 ≤ fuel)
    (h2 : self.g2rating.mu = opp.g2rating.mu) (hl : self.l2rating.mu = opp.l2rating.mu) :
    ∃ w2 st', Player.update_with_result solver0 fuel self .white .draw t opp (some st)
        (some (wr, br)) = .ok (w2, some st') ∧
      w2.g2rating.mu = self.g2rating.mu ∧ w2.l2rating.mu = self.l2rating.mu := by
  have hrec : ∃ stv, Except.map some
      (self.recordStats .white (1 / 2) self.mtime t opp st (some (wr, br)))
      = Except.ok (some stv) := ⟨_, rfl⟩
  obtain ⟨stv, hrec⟩ := hrec
  have hg2 := glicko2_update_draw_ok self.g2rating opp fuel h2 hf
  have hl2 := ligcko2_update_draw_ok self.l2rating opp self.mtime t fuel hl hf
  refine ⟨{ g1rating := self.g1rating.update_with_result (1 / 2) self.mtime t opp
            g2rating := Glicko2Rating.applyRoot self.g2rating (1 / 2) opp.g2rating 0
            l2rating := Ligcko2Rating.applyRoot self.l2rating (1 / 2) opp.l2rating
              (calcDays self.mtime t) 0
            mtime := t }, stv, ?_, ?_, ?_⟩
  · simp only [Player.update_with_result, hrec, hg2, hl2, except_bind_ok]
  · exact glicko2_applyRoot_mu_draw self.g2rating opp.g2rating 0 h2
  · exact ligcko2_applyRoot_mu_draw self.l2rating opp.l2rating (calcDays self.mtime t) 0 hl

theorem player_update_draw_black (self opp : Player) (t : ℤ) (fuel : ℕ) (hf : 1 ≤ fuel)
    (h2 : self.g2rating.mu = opp.g2rating.mu) (hl : self.l2rating.mu = opp.l2rating.mu) :
    ∃ b2, Player.update_with_result solver0 fuel self .black .draw t opp none none
      = .ok (b2, none) := by
  have hg2 := glicko2_update_draw_ok self.g2rating opp fuel h2 hf
  have hl2 := ligcko2_update_draw_ok self.l2rating opp self.mtime t fuel hl hf
  exact ⟨{ g1rating := self.g1rating.update_with_result (1 / 2) self.mtime t opp
           g2rating := Glicko2Rating.applyRoot self.g2rating (1 / 2) opp.g2rating 0
           l2rating := Ligcko2Rating.applyRoot self.l2rating (1 / 2) opp.l2rating
             (calcDays self.mtime t) 0
           mtime := t },
    by simp only [Player.update_with_result, hg2, hl2, except_bind_ok]⟩

/-- C1: RatingDB::update factors exactly as: fetch-or-create both entries,
update the white entry against the pre-update black snapshot b1 (with stats
and the external ratings enabled), then update the black entry against the
already-mutated white result w2 (not against the pre-update white w1), and
write white then black back.  The updated white carries mtime = the record's
timestamp, so whenever the stored white had a different timestamp the opponent
snapshot seen by black provably differs from the pre-update white: the two
updates are not symmetric in opponent staleness. -/
theorem ratingdb_update_opponent_staleness (solver : Solver) (fuel : ℕ) (d : RatingDB)
    (upd : ResultUpdate) (result : Outcome) (w1 b1 w2 b2 : Player) (s2 sb : Option StatsDB)
    (hres : upd.result = some result)
    (hw1 : RatingDB.fetch d.db upd.white upd.datetime = w1)
    (hb1 : RatingDB.fetch d.db upd.black upd.datetime = b1)
    (hw : Player.update_with_result solver fuel w1 .white result upd.datetime b1
      (some d.stats) (some (upd.white_rating, upd.black_rating)) = .ok (w2, s2))
    (hb : Player.update_with_result solver fuel b1 .black result upd.datetime w2
      none none = .ok (b2, sb)) :
    RatingDB.update solver fuel d upd
      = .ok ⟨(d.db.insert upd.white w2).insert upd.black b2, s2.getD d.stats⟩ ∧
    w2.mtime = upd.datetime ∧
    (w1.mtime ≠ upd.datetime → w2 ≠ w1) := by
  have hmt := player_update_ok_mtime solver fuel w1 .white result upd.datetime b1
    (some d.stats) (some (upd.white_rating, upd.black_rating)) w2 s2 hw
  refine ⟨?_, hmt, fun hne heq => hne (heq ▸ hmt)⟩
  simp only [RatingDB.update, hres, hw1, hb1, hw, hb, except_bind_ok]

/-- C1 witness: a concrete drawn game between two fresh players under the
constant root finder. -/
theorem ratingdb_update_opponent_staleness_witness :
    ∃ d', RatingDB.update solver0 1 RatingDB.new ⟨"a", "b", some .draw, 5, 1500, 1500⟩
      = .ok d' := by
  obtain ⟨w2, st', hw, hg2mu, hl2mu⟩ := player_update_draw_white (Player.new 5) (Player.new 5)
    5 RatingDB.new.stats 1500 1500 1 (le_refl 1) rfl rfl
  obtain ⟨b2, hb⟩ := player_update_draw_black (Player.new 5) w2 5 1 (le_refl 1)
    hg2mu.symm hl2mu.symm
  exact ⟨_, (ratingdb_update_opponent_staleness solver0 1 RatingDB.new
    ⟨"a", "b", some .draw, 5, 1500, 1500⟩ .draw (Player.new 5) (Player.new 5) w2 b2
    (some st') none rfl rfl rfl hw hb).1⟩

/-- C10: when the record's two identifiers are equal, both lookups clone the
same stored entry; the white update and the black update are computed from two
copies of that entry (black's copy still pre-update, with the updated white as
opponent), and the write-back inserts white first and black second, so the
stored state at that identifier is the black-side result: the white-side
result is lost whenever it differs. -/
theorem ratingdb_update_same_id (solver : Solver) (fuel : ℕ) (d : RatingDB)
    (upd : ResultUpdate) (result : Outcome) (entry w2 b2 : Player) (s2 sb : Option StatsDB)
    (hres : upd.result = some result)
    (hid : upd.white = upd.black)
    (hent : RatingDB.fetch d.db upd.white upd.datetime = entry)
    (hw : Player.update_with_result solver fuel entry .white result upd.datetime entry
      (some d.stats) (some (upd.white_rating, upd.black_rating)) = .ok (w2, s2))
    (hb : Player.update_with_result solver fuel entry .black result upd.datetime w2
      none none = .ok (b2, sb)) :
    RatingDB.update solver fuel d upd
      = .ok ⟨(d.db.insert upd.white w2).insert upd.black b2, s2.getD d.stats⟩ ∧
    ((d.db.insert upd.white w2).insert upd.black b2) upd.white = some b2 ∧
    (b2 ≠ w2 → ((d.db.insert upd.white w2).insert upd.black b2) upd.white ≠ some w2) := by
  have hent2 : RatingDB.fetch d.db upd.black upd.datetime = entry := by
    rw [← hid]; exact hent
  have hlook : ((d.db.insert upd.white w2).insert upd.black b2) upd.white = some b2 := by
    simp only [PlayerMap.insert]
    rw [if_pos hid]
  refine ⟨?_, hlook, fun hne => by rw [hlook]; intro hc; exact hne (Option.some.inj hc)⟩
  simp only [RatingDB.update, hres, hent, hent2, hw, hb, except_bind_ok]

/-- C10 witness: a concrete drawn game of a fresh player against itself. -/
theorem ratingdb_update_same_id_witness :
    ∃ d', RatingDB.update solver0 1 RatingDB.new ⟨"a", "a", some .draw, 0, 1500, 1500⟩
      = .ok d' := by
  obtain ⟨w2, st', hw, hg2mu, hl2mu⟩ := player_update_draw_white (Player.new 0) (Player.new 0)
    0 RatingDB.new.stats 1500 1500 1 (le_refl 1) rfl rfl
  obtain ⟨b2, hb⟩ := player_update_draw_black (Player.new 0) w2 0 1 (le_refl 1)
    hg2mu.symm hl2mu.symm
  exact ⟨_, (ratingdb_update_same_id solver0 1 RatingDB.new
    ⟨"a", "a", some .draw, 0, 1500, 1500⟩ .draw (Player.new 0) w2 b2 (some st') none
    rfl rfl rfl hw hb).1⟩

end
